import Mathlib

/-!
Verification of the core merge engine of the `pdf-editor` repository
(`pdf_merger_core.py`, class `PDFMergerCore`).

The Python code interacts with the outside world (filesystem, PyPDF2)
only through a fixed set of calls: `os.path.exists`, `open(.., 'rb')`,
`PdfReader`, `reader.pages`, `reader.pages[0]`, `reader.metadata.get`,
`os.path.getsize`, `os.makedirs`, `open(output, 'wb')` + `writer.write`.
We model one behaviour of each such call as a field of an environment
record: a `Bool` for a pure predicate, an `Except PyExc Unit` for a call
that may raise a Python exception.  The functions of the source file are
then translated line by line over that environment: a `try`/`except`
block becomes a `match` on the `Except` value of its body, and the
caught exception classes of each `except` clause are recorded
explicitly.  Distinct call sites that re-open the same file (validation,
metadata read, merge-time extraction) get distinct fields, so a file
that changes between the validation pass and the merge loop is
representable.
-/

/-- Python exception classes that the source file names or can receive:
`PdfReadError`, `FileNotFoundError`, `PermissionError`, and any other
`Exception` subclass. -/
inductive PyExc where
  | pdfReadError
  | fileNotFoundError
  | permissionError
  | otherException
deriving DecidableEq, Repr

instance : DecidableEq (Except PyExc Unit) := fun a b =>
  match a, b with
  | .ok _, .ok _ => isTrue rfl
  | .error e, .error f =>
    if h : e = f then isTrue (by rw [h]) else isFalse (by simp [h])
  | .ok _, .error _ => isFalse (by simp)
  | .error _, .ok _ => isFalse (by simp)

/-- Predicate `exOk e` is `true` iff the modelled Python call returned normally. -/
def exOk : Except PyExc Unit → Bool
  | .ok _ => true
  | .error _ => false

/-- One filesystem path as the core sees it: the outcome of every
external call the core can make on that path, plus the data those calls
would yield.  Pages are opaque units (modelled as `Nat` identifiers);
the core never inspects them (`writer.add_page` only appends). -/
structure PdfFile where
  /-- Result of `os.path.exists(file_path)` (checked in `merge_pdfs`). -/
  pathExists : Bool
  /-- Outcome of `open(file_path, 'rb')` inside `validate_pdf_file`. -/
  openRes : Except PyExc Unit
  /-- Outcome of `PdfReader(file)` inside `validate_pdf_file`. -/
  parseRes : Except PyExc Unit
  /-- Value of `reader.pages` — the document's page stream, in document order. -/
  pages : List Nat
  /-- the access `_ = reader.pages[0]` inside `validate_pdf_file`. -/
  firstPageRes : Except PyExc Unit
  /-- Outcome of `open` + `PdfReader` + metadata + `os.path.getsize` inside
  `get_pdf_info` (a separate re-open of the file). -/
  infoReadRes : Except PyExc Unit
  /-- Value of `reader.metadata.get('/Title', '')` (default already applied). -/
  title : String
  /-- Value of `reader.metadata.get('/Author', '')` (default already applied). -/
  author : String
  /-- Value of `os.path.getsize(file_path)`. -/
  file_size : Nat
  /-- Outcome of `open` + `PdfReader` + iteration over `reader.pages` inside the
  merge loop of `merge_pdfs` (a separate re-open, possibly after the
  file changed since validation). -/
  mergeReadRes : Except PyExc Unit
deriving DecidableEq, Repr

/-- The body of the `try` block of `validate_pdf_file` (lines 17-23):
open the file, parse it, and if it has at least one page access the
first page; return `True` when all of that succeeds. -/
def validate_body (f : PdfFile) : Except PyExc Bool :=
  match f.openRes with
  | .error e => .error e
  | .ok _ =>
    match f.parseRes with
    | .error e => .error e
    | .ok _ =>
      if f.pages.length > 0 then
        match f.firstPageRes with
        | .error e => .error e
        | .ok _ => .ok true
      else .ok true

/-- The exception classes caught by
`except (PdfReadError, FileNotFoundError, PermissionError, Exception)`
in `validate_pdf_file`; the trailing `Exception` catches everything. -/
def caught_by_validate : PyExc → Bool
  | .pdfReadError => true
  | .fileNotFoundError => true
  | .permissionError => true
  | .otherException => true

/-- Function `validate_pdf_file` as the caller observes it: the `try` body with
every caught exception converted to the `return False` of the `except`
clause. -/
def validate_pdf_file (f : PdfFile) : Bool :=
  match validate_body f with
  | .ok b => b
  | .error _ => false

/-- Function `validate_pdf_file` including exception propagation: an exception
not caught by the `except` clause would escape to the caller as
`.error`.  Used to state that no exception ever escapes. -/
def validate_run (f : PdfFile) : Except PyExc Bool :=
  match validate_body f with
  | .ok b => .ok b
  | .error e => if caught_by_validate e then .ok false else .error e

/-- The record returned by `get_pdf_info`. -/
structure PdfInfoRec where
  pages : Nat
  title : String
  author : String
  file_size : Nat
deriving DecidableEq, Repr

/-- The body of the `try` block of `get_pdf_info` (lines 30-38). -/
def get_pdf_info_body (f : PdfFile) : Except PyExc PdfInfoRec :=
  match f.infoReadRes with
  | .error e => .error e
  | .ok _ => .ok ⟨f.pages.length, f.title, f.author, f.file_size⟩

/-- The exception classes caught by `except Exception` in
`get_pdf_info`: every Python exception. -/
def caught_by_info : PyExc → Bool
  | .pdfReadError => true
  | .fileNotFoundError => true
  | .permissionError => true
  | .otherException => true

/-- Function `get_pdf_info` as the caller observes it: any failure yields the
zero-valued record. -/
def get_pdf_info (f : PdfFile) : PdfInfoRec :=
  match get_pdf_info_body f with
  | .ok r => r
  | .error _ => ⟨0, "", "", 0⟩

/-- Function `get_pdf_info` including exception propagation, to state that no
exception escapes. -/
def get_pdf_info_run (f : PdfFile) : Except PyExc PdfInfoRec :=
  match get_pdf_info_body f with
  | .ok r => .ok r
  | .error e => if caught_by_info e then .ok ⟨0, "", "", 0⟩ else .error e

/-- A filesystem: what each path would yield to each call of the core. -/
def FileSystem : Type := String → PdfFile

/-- The record returned by `get_file_list_info`. -/
structure FileListInfo where
  total_files : Nat
  valid_files : Nat
  total_pages : Nat
  total_size : Nat
deriving DecidableEq, Repr

/-- The accumulation loop of `get_file_list_info` (lines 119-124):
for each path that passes `validate_pdf_file`, add the `pages` and
`file_size` of its `get_pdf_info` record and count it as valid.
Returns `(valid_files, total_pages, total_size)`. -/
def file_list_loop (fs : FileSystem) : List String → Nat × Nat × Nat
  | [] => (0, 0, 0)
  | p :: rest =>
    let acc := file_list_loop fs rest
    if validate_pdf_file (fs p) then
      let info := get_pdf_info (fs p)
      (acc.1 + 1, acc.2.1 + info.pages, acc.2.2 + info.file_size)
    else acc

/-- Function `get_file_list_info` (lines 113-131). -/
def get_file_list_info (fs : FileSystem) (file_paths : List String) :
    FileListInfo :=
  let acc := file_list_loop fs file_paths
  ⟨file_paths.length, acc.1, acc.2.1, acc.2.2⟩

/-- The environment of one `merge_pdfs` call: the filesystem plus the
outcome of the calls made on the output side. -/
structure MergeEnv where
  /-- The filesystem the input paths are resolved against. -/
  fs : FileSystem
  /-- Whether `os.path.dirname(output_path)` is non-empty (truthy). -/
  dirname_nonempty : Bool
  /-- Result of `os.path.exists(output_dir)`. -/
  dir_exists : Bool
  /-- Outcome of `os.makedirs(output_dir)`. -/
  makedirsRes : Except PyExc Unit
  /-- Outcome of `open(output_path, 'wb')` + `writer.write(output_file)`. -/
  writeRes : Except PyExc Unit

/-- Everything a caller can observe of one `merge_pdfs` call, beyond
logging: the returned boolean, the arguments of every
`progress_callback` invocation in order, whether the output-file write
was ever attempted, and the page sequence of the output document when
the write succeeded. -/
structure MergeOutcome where
  result : Bool
  callbacks : List (Nat × Nat)
  write_attempted : Bool
  written : Option (List Nat)
deriving DecidableEq, Repr

/-- The validation pass of `merge_pdfs` (lines 63-71): keep the paths
that exist and pass `validate_pdf_file`, in input order. -/
def merge_valid_files (env : MergeEnv) (input_files : List String) :
    List String :=
  input_files.filter
    (fun p => (env.fs p).pathExists && validate_pdf_file (env.fs p))

/-- The extraction loop of `merge_pdfs` (lines 81-95), started at
enumeration index `i`.  For each file: open and read its whole page
stream, appending every page to the accumulator, then — still inside
the per-file `try` — invoke the progress callback with
`(i + 1, total_files)` if one was supplied; on any exception, skip the
file (no pages, no callback) and continue.  Returns the accumulated
page sequence and the callback-argument trace. -/
def merge_loop (env : MergeEnv) (has_cb : Bool) (total : Nat) :
    Nat → List String → List Nat × List (Nat × Nat)
  | _, [] => ([], [])
  | i, p :: rest =>
    let tail := merge_loop env has_cb total (i + 1) rest
    match (env.fs p).mergeReadRes with
    | .ok _ =>
      ((env.fs p).pages ++ tail.1,
       (if has_cb then [(i + 1, total)] else []) ++ tail.2)
    | .error _ => tail

/-- Lines 98-100 of `merge_pdfs`: create the output directory when the
dirname is non-empty and the directory is missing. -/
def mkdir_step (env : MergeEnv) : Except PyExc Unit :=
  if env.dirname_nonempty && !env.dir_exists then env.makedirsRes
  else .ok ()

/-- Function `merge_pdfs` (lines 43-111), as the caller observes it.
`has_cb` records whether a `progress_callback` was supplied.  An empty
input list and an empty post-validation list both return `False` before
any extraction, callback or write; otherwise the loop runs, the output
directory is created if needed and the merged document is written, any
exception of those two steps being caught by the outer `except` and
converted to `return False`. -/
def merge_pdfs (env : MergeEnv) (input_files : List String)
    (has_cb : Bool) : MergeOutcome :=
  if input_files.isEmpty then ⟨false, [], false, none⟩
  else
    let valid_files := merge_valid_files env input_files
    if valid_files.isEmpty then ⟨false, [], false, none⟩
    else
      let acc := merge_loop env has_cb valid_files.length 0 valid_files
      match mkdir_step env with
      | .error _ => ⟨false, acc.2, false, none⟩
      | .ok _ =>
        match env.writeRes with
        | .error _ => ⟨false, acc.2, true, none⟩
        | .ok _ => ⟨true, acc.2, true, some acc.1⟩

/-- The exception classes caught by the outer `except Exception` of
`merge_pdfs`: every Python exception. -/
def caught_by_merge : PyExc → Bool
  | .pdfReadError => true
  | .fileNotFoundError => true
  | .permissionError => true
  | .otherException => true

/-- Function `merge_pdfs` including exception propagation: an exception of the
directory-creation or write step not caught by the outer `except`
clause would escape to the caller.  Used to state that none does. -/
def merge_pdfs_run (env : MergeEnv) (input_files : List String)
    (has_cb : Bool) : Except PyExc MergeOutcome :=
  if input_files.isEmpty then .ok ⟨false, [], false, none⟩
  else
    let valid_files := merge_valid_files env input_files
    if valid_files.isEmpty then .ok ⟨false, [], false, none⟩
    else
      let acc := merge_loop env has_cb valid_files.length 0 valid_files
      match mkdir_step env with
      | .error e =>
        if caught_by_merge e then .ok ⟨false, acc.2, false, none⟩
        else .error e
      | .ok _ =>
        match env.writeRes with
        | .error e =>
          if caught_by_merge e then .ok ⟨false, acc.2, true, none⟩
          else .error e
        | .ok _ => .ok ⟨true, acc.2, true, some acc.1⟩

/-! ### Basic facts about the modelled exception handling -/

theorem caught_by_validate_all (e : PyExc) : caught_by_validate e = true := by
  cases e <;> rfl

theorem caught_by_info_all (e : PyExc) : caught_by_info e = true := by
  cases e <;> rfl

theorem caught_by_merge_all (e : PyExc) : caught_by_merge e = true := by
  cases e <;> rfl

theorem exOk_true_iff (e : Except PyExc Unit) : exOk e = true ↔ e = .ok () := by
  cases e with
  | ok u => cases u; simp [exOk]
  | error er => simp [exOk]

/-! ### Helper list lemmas -/

theorem filter_all_true {α : Type} (p : α → Bool) (l : List α)
    (h : ∀ a ∈ l, p a = true) : l.filter p = l :=
  List.filter_eq_self.mpr h

theorem filter_all_false {α : Type} (p : α → Bool) (l : List α)
    (h : ∀ a ∈ l, p a = false) : l.filter p = [] := by
  rw [List.filter_eq_nil_iff]
  intro a ha
  simp [h a ha]

/-! ### The merge loop: accumulated pages and callback trace -/

/-- The pages accumulated by the merge loop are the concatenation, in
list order, of the page streams of exactly the files whose merge-time
read succeeded. -/
theorem merge_loop_pages (env : MergeEnv) (has_cb : Bool) (total : Nat) :
    ∀ (files : List String) (i : Nat),
      (merge_loop env has_cb total i files).1
        = (files.filter fun p => exOk (env.fs p).mergeReadRes).flatMap
            (fun p => (env.fs p).pages) := by
  intro files
  induction files with
  | nil => intro i; rfl
  | cons p rest ih =>
    intro i
    simp only [merge_loop, List.filter_cons]
    cases h : (env.fs p).mergeReadRes with
    | ok u => simp [h, exOk, ih (i + 1)]
    | error e => simp [h, exOk, ih (i + 1)]

/-- The callback trace of the merge loop started at index `i`: one
entry `(j + 1, total)` per file whose merge-time read succeeded, where
`j` is the file's enumeration index, and nothing when no callback was
supplied. -/
theorem merge_loop_callbacks (env : MergeEnv) (has_cb : Bool)
    (total : Nat) :
    ∀ (files : List String) (i : Nat),
      (merge_loop env has_cb total i files).2
        = if has_cb then
            ((List.enumFrom i files).filter
                fun jp => exOk (env.fs jp.2).mergeReadRes).map
              (fun jp => (jp.1 + 1, total))
          else [] := by
  intro files
  induction files with
  | nil => intro i; cases has_cb <;> rfl
  | cons p rest ih =>
    intro i
    simp only [merge_loop, List.enumFrom, List.filter_cons]
    cases h : (env.fs p).mergeReadRes with
    | ok u => cases has_cb <;> simp [h, exOk, ih (i + 1)]
    | error e => cases has_cb <;> simp [h, exOk, ih (i + 1)]

/-- Every callback entry of the loop started at index `i` carries a
completed count strictly above `i`. -/
theorem merge_loop_cb_lb (env : MergeEnv) (has_cb : Bool) (total : Nat) :
    ∀ (files : List String) (i : Nat) (c : Nat × Nat),
      c ∈ (merge_loop env has_cb total i files).2 → i < c.1 := by
  intro files
  induction files with
  | nil => intro i c hc; simp [merge_loop] at hc
  | cons p rest ih =>
    intro i c hc
    simp only [merge_loop] at hc
    cases h : (env.fs p).mergeReadRes with
    | ok u =>
      rw [h] at hc
      simp only [List.mem_append] at hc
      rcases hc with hc | hc
      · cases has_cb with
        | false => simp at hc
        | true =>
          simp at hc
          rw [hc]
          omega
      · have := ih (i + 1) c hc
        omega
    | error e =>
      rw [h] at hc
      have := ih (i + 1) c hc
      omega

/-- The completed counts of the callback trace are strictly
increasing. -/
theorem merge_loop_cb_pairwise (env : MergeEnv) (has_cb : Bool)
    (total : Nat) :
    ∀ (files : List String) (i : Nat),
      List.Pairwise (fun a b : Nat × Nat => a.1 < b.1)
        (merge_loop env has_cb total i files).2 := by
  intro files
  induction files with
  | nil => intro i; simp [merge_loop]
  | cons p rest ih =>
    intro i
    simp only [merge_loop]
    cases h : (env.fs p).mergeReadRes with
    | ok u =>
      cases has_cb with
      | false => simpa using ih (i + 1)
      | true =>
        simp only [if_pos rfl, List.singleton_append]
        refine List.pairwise_cons.mpr ⟨?_, ih (i + 1)⟩
        intro c hc
        exact merge_loop_cb_lb env true total rest (i + 1) c hc
    | error e => exact ih (i + 1)

/-! ### Branch lemmas for `merge_pdfs` -/

theorem valid_ne_imp_files_ne (env : MergeEnv) (input_files : List String)
    (h : (merge_valid_files env input_files).isEmpty = false) :
    input_files.isEmpty = false := by
  cases input_files with
  | nil => simp [merge_valid_files] at h
  | cons p rest => rfl

/-- When validation retains nothing, `merge_pdfs` short-circuits. -/
theorem merge_pdfs_no_valid (env : MergeEnv) (input_files : List String)
    (has_cb : Bool) (h : (merge_valid_files env input_files).isEmpty = true) :
    merge_pdfs env input_files has_cb = ⟨false, [], false, none⟩ := by
  cases hf : input_files.isEmpty with
  | true => simp [merge_pdfs, hf]
  | false => simp [merge_pdfs, hf, h]

/-- The fully successful branch of `merge_pdfs`. -/
theorem merge_pdfs_ok_case (env : MergeEnv) (input_files : List String)
    (has_cb : Bool)
    (h : (merge_valid_files env input_files).isEmpty = false)
    (hm : mkdir_step env = .ok ())
    (hw : env.writeRes = .ok ()) :
    merge_pdfs env input_files has_cb =
      ⟨true,
       (merge_loop env has_cb (merge_valid_files env input_files).length 0
          (merge_valid_files env input_files)).2,
       true,
       some (merge_loop env has_cb (merge_valid_files env input_files).length 0
          (merge_valid_files env input_files)).1⟩ := by
  simp [merge_pdfs, valid_ne_imp_files_ne env input_files h, h, hm, hw]

/-- The branch of `merge_pdfs` where creating the output directory
raises: the outer `except` converts it to `return False`, with no write
attempted. -/
theorem merge_pdfs_mkdir_err (env : MergeEnv) (input_files : List String)
    (has_cb : Bool)
    (h : (merge_valid_files env input_files).isEmpty = false)
    (e : PyExc) (hm : mkdir_step env = .error e) :
    merge_pdfs env input_files has_cb =
      ⟨false,
       (merge_loop env has_cb (merge_valid_files env input_files).length 0
          (merge_valid_files env input_files)).2,
       false, none⟩ := by
  simp [merge_pdfs, valid_ne_imp_files_ne env input_files h, h, hm]

/-- The branch of `merge_pdfs` where writing the output file raises:
the outer `except` converts it to `return False`. -/
theorem merge_pdfs_write_err (env : MergeEnv) (input_files : List String)
    (has_cb : Bool)
    (h : (merge_valid_files env input_files).isEmpty = false)
    (hm : mkdir_step env = .ok ())
    (e : PyExc) (hw : env.writeRes = .error e) :
    merge_pdfs env input_files has_cb =
      ⟨false,
       (merge_loop env has_cb (merge_valid_files env input_files).length 0
          (merge_valid_files env input_files)).2,
       true, none⟩ := by
  simp [merge_pdfs, valid_ne_imp_files_ne env input_files h, h, hm, hw]

/-- The outer `except Exception` of `merge_pdfs` catches every
exception of the directory-creation and write steps: the call always
returns its boolean, never letting an exception escape. -/
theorem merge_pdfs_run_ok (env : MergeEnv) (input_files : List String)
    (has_cb : Bool) :
    merge_pdfs_run env input_files has_cb
      = Except.ok (merge_pdfs env input_files has_cb) := by
  cases hf : input_files.isEmpty with
  | true => simp [merge_pdfs, merge_pdfs_run, hf]
  | false =>
    cases hv : (merge_valid_files env input_files).isEmpty with
    | true => simp [merge_pdfs, merge_pdfs_run, hf, hv]
    | false =>
      cases hm : mkdir_step env with
      | error e =>
        simp [merge_pdfs, merge_pdfs_run, hf, hv, hm, caught_by_merge_all]
      | ok u =>
        cases hw : env.writeRes with
        | error e =>
          simp [merge_pdfs, merge_pdfs_run, hf, hv, hm, hw,
            caught_by_merge_all]
        | ok u2 => simp [merge_pdfs, merge_pdfs_run, hf, hv, hm, hw]

/-! ### Concrete files and filesystems used by witnesses and
counterexamples -/

/-- A healthy file: every call on it succeeds. -/
def okFile (pages : List Nat) (size : Nat) : PdfFile :=
  ⟨true, .ok (), .ok (), pages, .ok (), .ok (), "", "", size, .ok ()⟩

/-- A file that exists and validates, but whose merge-time re-read
raises (it changed or became unreadable between validation and
extraction). -/
def raceFile (pages : List Nat) (size : Nat) : PdfFile :=
  ⟨true, .ok (), .ok (), pages, .ok (), .ok (), "", "", size,
   .error .otherException⟩

/-- A file that exists but does not parse as a PDF. -/
def corruptFile : PdfFile :=
  ⟨true, .ok (), .error .pdfReadError, [], .ok (),
   .error .pdfReadError, "", "", 0, .error .pdfReadError⟩

/-- A path with no file behind it. -/
def missingFile : PdfFile :=
  ⟨false, .error .fileNotFoundError, .ok (), [], .ok (),
   .error .fileNotFoundError, "", "", 0, .error .fileNotFoundError⟩

/-! ### Claims about the Validator and the Metadata Extractor -/

/-- C8: `validate_pdf_file` never lets an exception escape (the
`except` clause catches every class), and it returns `true` exactly
when the open succeeds, the parse succeeds, and — when the document has
at least one page — the first-page access succeeds. -/
theorem validate_total_and_exact (f : PdfFile) :
    validate_run f = Except.ok (validate_pdf_file f)
    ∧ (validate_pdf_file f = true ↔
        f.openRes = Except.ok () ∧ f.parseRes = Except.ok ()
        ∧ (f.pages = [] ∨ f.firstPageRes = Except.ok ())) := by
  obtain ⟨pe, o, pr, pg, fp, ir, t, a, sz, mr⟩ := f
  constructor
  · simp only [validate_run, validate_pdf_file]
    cases validate_body ⟨pe, o, pr, pg, fp, ir, t, a, sz, mr⟩ with
    | ok b => rfl
    | error e => simp [caught_by_validate_all]
  · simp only [validate_pdf_file, validate_body]
    rcases o with e | u
    · simp
    · cases u
      rcases pr with e | u
      · simp
      · cases u
        rcases pg with _ | ⟨x, xs⟩
        · simp
        · rcases fp with e | u
          · simp
          · cases u; simp

/-- C9: `get_pdf_info` never lets an exception escape (`except
Exception` catches every class); on a successful read it returns the
page count, title, author and byte size of the file, and on any failure
it returns the zero-valued record. -/
theorem info_fail_soft (f : PdfFile) :
    get_pdf_info_run f = Except.ok (get_pdf_info f)
    ∧ get_pdf_info f =
        (if exOk f.infoReadRes then
          ⟨f.pages.length, f.title, f.author, f.file_size⟩
        else ⟨0, "", "", 0⟩) := by
  constructor
  · simp only [get_pdf_info_run, get_pdf_info]
    cases h : get_pdf_info_body f with
    | ok r => rfl
    | error e => simp [caught_by_info_all]
  · simp only [get_pdf_info, get_pdf_info_body]
    cases h : f.infoReadRes with
    | ok u => simp [exOk]
    | error e => simp [exOk]

/-! ### Claims about the Batch Summarizer -/

/-- The loop of `get_file_list_info` computes the count of valid paths
and the sums of the `get_pdf_info` page counts and byte sizes over the
valid paths. -/
theorem file_list_loop_spec (fs : FileSystem) (paths : List String) :
    file_list_loop fs paths =
      ((paths.filter fun p => validate_pdf_file (fs p)).length,
       ((paths.filter fun p => validate_pdf_file (fs p)).map
          fun p => (get_pdf_info (fs p)).pages).sum,
       ((paths.filter fun p => validate_pdf_file (fs p)).map
          fun p => (get_pdf_info (fs p)).file_size).sum) := by
  induction paths with
  | nil => rfl
  | cons p rest ih =>
    simp only [file_list_loop, List.filter_cons]
    cases h : validate_pdf_file (fs p) with
    | true => simp [h, ih, Nat.add_comm]
    | false => simp [h, ih]

/-- The filesystem of the spec's summarizer example: `A.pdf` valid with
3 pages and 100 bytes, `B.pdf` valid with 2 pages and 200 bytes,
`C.pdf` present but corrupt. -/
def exampleFS : FileSystem := fun p =>
  if p = "A.pdf" then okFile [0, 1, 2] 100
  else if p = "B.pdf" then okFile [3, 4] 200
  else corruptFile

/-- C10: `get_file_list_info` reports the length of the input list as
`total_files`, the number of paths passing validation as `valid_files`,
and the sums of the `get_pdf_info` page counts and byte sizes over
exactly the valid paths; in particular, over two valid documents of 3
and 2 pages plus one invalid path it yields totals (3, 2, 5). -/
theorem summarize_totals (fs : FileSystem) (paths : List String) :
    (get_file_list_info fs paths).total_files = paths.length
    ∧ (get_file_list_info fs paths).valid_files
        = (paths.filter fun p => validate_pdf_file (fs p)).length
    ∧ (get_file_list_info fs paths).total_pages
        = ((paths.filter fun p => validate_pdf_file (fs p)).map
            fun p => (get_pdf_info (fs p)).pages).sum
    ∧ (get_file_list_info fs paths).total_size
        = ((paths.filter fun p => validate_pdf_file (fs p)).map
            fun p => (get_pdf_info (fs p)).file_size).sum
    ∧ get_file_list_info exampleFS ["A.pdf", "B.pdf", "C.pdf"]
        = ⟨3, 2, 5, 300⟩ := by
  refine ⟨rfl, ?_, ?_, ?_, by decide⟩ <;>
    simp [get_file_list_info, file_list_loop_spec]

/-! ### Claims about the Merge Engine -/

theorem flatMap_length_sum (l : List String) (f : String → List Nat) :
    (l.flatMap f).length = (l.map fun p => (f p).length).sum := by
  induction l with
  | nil => rfl
  | cons a t ih => simp [ih]

/-- The environment of the C1 counterexample: `a` healthy, `b` valid at
validation time but failing at merge-time extraction. -/
def cexEnv1 : MergeEnv :=
  ⟨fun p => if p = "a" then okFile [0, 1] 10 else raceFile [2, 3] 20,
   false, true, .ok (), .ok ()⟩

/-- C1, counterexample: two documents are retained after filtering, yet
the progress callback fires only once — the skipped document produces
no invocation, and the final call has completed 1 ≠ total 2. -/
theorem merge_progress_skips_failed_cex :
    (merge_valid_files cexEnv1 ["a", "b"]).length = 2
    ∧ (merge_pdfs cexEnv1 ["a", "b"] true).callbacks = [(1, 2)]
    ∧ (merge_pdfs cexEnv1 ["a", "b"] true).result = true := by
  refine ⟨rfl, rfl, rfl⟩

/-- C1, amended: with a callback supplied, `merge_pdfs` invokes it
exactly once per retained document whose extraction succeeded — not
once per retained document — with completed equal to one plus that
document's enumeration index among the retained documents (hence
strictly increasing) and total equal to the retained count; a document
skipped by the per-file fault handling produces no invocation, so the
final call reaches `(total, total)` only when the last retained
document's extraction succeeds. -/
theorem merge_progress_per_success (env : MergeEnv)
    (input_files : List String) :
    (merge_pdfs env input_files true).callbacks
      = ((List.enumFrom 0 (merge_valid_files env input_files)).filter
            fun jp => exOk (env.fs jp.2).mergeReadRes).map
          (fun jp => (jp.1 + 1, (merge_valid_files env input_files).length))
    ∧ List.Pairwise (fun a b : Nat × Nat => a.1 < b.1)
        (merge_pdfs env input_files true).callbacks := by
  cases hv : (merge_valid_files env input_files).isEmpty with
  | true =>
    have hnil : merge_valid_files env input_files = [] :=
      List.isEmpty_iff.mp hv
    rw [merge_pdfs_no_valid env input_files true hv]
    simp [hnil, List.enumFrom]
  | false =>
    have hcb : (merge_pdfs env input_files true).callbacks
        = (merge_loop env true (merge_valid_files env input_files).length 0
            (merge_valid_files env input_files)).2 := by
      cases hm : mkdir_step env with
      | error e => rw [merge_pdfs_mkdir_err env input_files true hv e hm]
      | ok u =>
        cases u
        cases hw : env.writeRes with
        | error e => rw [merge_pdfs_write_err env input_files true hv hm e hw]
        | ok u2 =>
          cases u2
          rw [merge_pdfs_ok_case env input_files true hv hm hw]
    rw [hcb]
    constructor
    · rw [merge_loop_callbacks]
      simp
    · exact merge_loop_cb_pairwise env true _ _ 0

/-- The environment of the C2 counterexample: one valid input whose
merge-time read fails, output side healthy. -/
def cexEnv2 : MergeEnv :=
  ⟨fun _ => raceFile [5, 6] 10, false, true, .ok (), .ok ()⟩

/-- C2, counterexample: the filtered set is non-empty, zero pages end
up written, yet the call returns success — so success is not equivalent
to "at least one page was written". -/
theorem merge_success_zero_pages_cex :
    (merge_valid_files cexEnv2 ["a"]).length = 1
    ∧ (merge_pdfs cexEnv2 ["a"] false).result = true
    ∧ (merge_pdfs cexEnv2 ["a"] false).written = some [] := by
  refine ⟨rfl, rfl, rfl⟩

/-- C2, amended: when the filtered set is non-empty, the result is
success if and only if the directory-creation step and the output write
raise no error — independently of how many pages were accumulated; in
particular a zero-page write still returns success. -/
theorem merge_success_iff_write_ok (env : MergeEnv)
    (input_files : List String) (has_cb : Bool)
    (h : (merge_valid_files env input_files).isEmpty = false) :
    (merge_pdfs env input_files has_cb).result = true
      ↔ (mkdir_step env = Except.ok () ∧ env.writeRes = Except.ok ()) := by
  cases hm : mkdir_step env with
  | error e =>
    rw [merge_pdfs_mkdir_err env input_files has_cb h e hm]
    simp
  | ok u =>
    cases u
    cases hw : env.writeRes with
    | error e =>
      rw [merge_pdfs_write_err env input_files has_cb h hm e hw]
      simp
    | ok u2 =>
      cases u2
      rw [merge_pdfs_ok_case env input_files has_cb h hm hw]
      simp

/-- Witness environment for the amended C2: everything healthy. -/
def wEnv2 : MergeEnv :=
  ⟨fun _ => okFile [0] 5, false, true, .ok (), .ok ()⟩

theorem merge_success_iff_write_ok_witness :
    (merge_pdfs wEnv2 ["a"] false).result = true :=
  (merge_success_iff_write_ok wEnv2 ["a"] false (by decide)).mpr ⟨rfl, rfl⟩

/-- The no-valid-inputs side of the C3 counterexample. -/
def cexEnv3a : MergeEnv :=
  ⟨fun _ => missingFile, false, true, .ok (), .ok ()⟩

/-- The write-failure side of the C3 counterexample. -/
def cexEnv3b : MergeEnv :=
  ⟨fun _ => okFile [0] 5, false, true, .ok (), .error .otherException⟩

/-- C3, counterexample: a no-valid-inputs run and a failed-write run
return the very same value (`False`), so the result reported to the
caller does not distinguish the NoValidInputs case from the MergeError
case. -/
theorem merge_result_indistinguishable_cex :
    merge_valid_files cexEnv3a ["x"] = []
    ∧ merge_valid_files cexEnv3b ["x"] = ["x"]
    ∧ cexEnv3b.writeRes = Except.error PyExc.otherException
    ∧ (merge_pdfs cexEnv3a ["x"] false).result
        = (merge_pdfs cexEnv3b ["x"] false).result := by
  refine ⟨rfl, rfl, rfl, rfl⟩

/-- C3, amended: every systemic failure — no valid inputs after
filtering, a failing directory creation, or a failing output write — is
reported to the caller as the failure result value `False`, never as an
escaping exception (the outer handler catches every class); but the
returned value is the same boolean in all those cases, so it does not
distinguish NoValidInputs from MergeError. -/
theorem merge_systemic_failures_reported_not_raised (env : MergeEnv)
    (input_files : List String) (has_cb : Bool) :
    merge_pdfs_run env input_files has_cb
      = Except.ok (merge_pdfs env input_files has_cb)
    ∧ ((merge_valid_files env input_files = []
        ∨ exOk (mkdir_step env) = false
        ∨ exOk env.writeRes = false) →
        (merge_pdfs env input_files has_cb).result = false) := by
  refine ⟨merge_pdfs_run_ok env input_files has_cb, ?_⟩
  intro h
  cases hv : (merge_valid_files env input_files).isEmpty with
  | true => rw [merge_pdfs_no_valid env input_files has_cb hv]
  | false =>
    rcases h with h | h | h
    · rw [h] at hv
      simp at hv
    · cases hm : mkdir_step env with
      | error e => rw [merge_pdfs_mkdir_err env input_files has_cb hv e hm]
      | ok u =>
        rw [hm] at h
        simp [exOk] at h
    · cases hm : mkdir_step env with
      | error e => rw [merge_pdfs_mkdir_err env input_files has_cb hv e hm]
      | ok u =>
        cases u
        cases hw : env.writeRes with
        | error e =>
          rw [merge_pdfs_write_err env input_files has_cb hv hm e hw]
        | ok u2 =>
          rw [hw] at h
          simp [exOk] at h

/-- Witness environment for the amended C3: no path is valid. -/
def wEnv3 : MergeEnv :=
  ⟨fun _ => corruptFile, false, true, .ok (), .ok ()⟩

theorem merge_systemic_failures_reported_not_raised_witness :
    (merge_pdfs wEnv3 ["x"] false).result = false :=
  (merge_systemic_failures_reported_not_raised wEnv3 ["x"] false).2
    (Or.inl (by decide))

/-- C4: when the post-filter set is non-empty, merge proceeds to the
output write even if every retained document's extraction failed: a
zero-page output document is still written at the output path and, the
write raising no error, the call returns success. -/
theorem merge_zero_pages_still_success (env : MergeEnv)
    (input_files : List String) (has_cb : Bool)
    (h : (merge_valid_files env input_files).isEmpty = false)
    (hfail : ∀ p ∈ merge_valid_files env input_files,
      exOk (env.fs p).mergeReadRes = false)
    (hm : mkdir_step env = Except.ok ())
    (hw : env.writeRes = Except.ok ()) :
    (merge_pdfs env input_files has_cb).result = true
    ∧ (merge_pdfs env input_files has_cb).write_attempted = true
    ∧ (merge_pdfs env input_files has_cb).written = some [] := by
  rw [merge_pdfs_ok_case env input_files has_cb h hm hw]
  refine ⟨rfl, rfl, ?_⟩
  simp only [merge_loop_pages]
  rw [filter_all_false _ _ hfail]
  rfl

/-- Witness environment for C4: a single valid input whose merge-time
read fails. -/
def wEnv4 : MergeEnv :=
  ⟨fun _ => raceFile [7] 3, false, true, .ok (), .ok ()⟩

theorem merge_zero_pages_still_success_witness :
    (merge_pdfs wEnv4 ["a"] false).result = true
    ∧ (merge_pdfs wEnv4 ["a"] false).written = some [] := by
  have h := merge_zero_pages_still_success wEnv4 ["a"] false
    (by decide) (by decide) rfl rfl
  exact ⟨h.1, h.2.2⟩

/-- C5: over a list of valid documents all of whose extractions
succeed, a successful merge writes exactly the concatenation of the
per-document page streams in input-list order — each document's own
page order preserved — and the output page count is the sum of the
per-document page counts. -/
theorem merge_concatenates_in_order (env : MergeEnv)
    (input_files : List String) (has_cb : Bool)
    (hne : input_files ≠ [])
    (hex : ∀ p ∈ input_files, (env.fs p).pathExists = true)
    (hval : ∀ p ∈ input_files, validate_pdf_file (env.fs p) = true)
    (hread : ∀ p ∈ input_files, exOk (env.fs p).mergeReadRes = true)
    (hm : mkdir_step env = Except.ok ())
    (hw : env.writeRes = Except.ok ()) :
    (merge_pdfs env input_files has_cb).result = true
    ∧ (merge_pdfs env input_files has_cb).written
        = some (input_files.flatMap fun p => (env.fs p).pages)
    ∧ (input_files.flatMap fun p => (env.fs p).pages).length
        = (input_files.map fun p => (env.fs p).pages.length).sum := by
  have hvalid : merge_valid_files env input_files = input_files := by
    apply filter_all_true
    intro a ha
    simp [hex a ha, hval a ha]
  have hvne : (merge_valid_files env input_files).isEmpty = false := by
    rw [hvalid]
    cases input_files with
    | nil => exact absurd rfl hne
    | cons a t => rfl
  rw [merge_pdfs_ok_case env input_files has_cb hvne hm hw]
  refine ⟨rfl, ?_, flatMap_length_sum _ _⟩
  simp only [merge_loop_pages, hvalid]
  rw [filter_all_true _ _ hread]

/-- Witness environment for C5: two healthy documents of 2 and 3
pages. -/
def wEnv5 : MergeEnv :=
  ⟨fun p => if p = "a" then okFile [0, 1] 10 else okFile [10, 11, 12] 20,
   false, true, .ok (), .ok ()⟩

theorem merge_concatenates_in_order_witness :
    (merge_pdfs wEnv5 ["a", "b"] true).result = true
    ∧ (merge_pdfs wEnv5 ["a", "b"] true).written = some [0, 1, 10, 11, 12] := by
  have h := merge_concatenates_in_order wEnv5 ["a", "b"] true
    (by decide) (by decide) (by decide) (by decide) rfl rfl
  exact ⟨h.1, h.2.1.trans (by decide)⟩

/-- C6: an extraction failure of one retained document (after it passed
validation) only removes that document's pages: the documents before
and after it are still processed and written, the call still completes
with its normal result, and no exception crosses the boundary of
`merge_pdfs`. -/
theorem merge_skips_failed_and_continues (env : MergeEnv)
    (input_files : List String) (has_cb : Bool)
    (pre post : List String) (bad : String)
    (hsplit : merge_valid_files env input_files = pre ++ bad :: post)
    (hbad : exOk (env.fs bad).mergeReadRes = false)
    (hm : mkdir_step env = Except.ok ())
    (hw : env.writeRes = Except.ok ()) :
    merge_pdfs_run env input_files has_cb
      = Except.ok (merge_pdfs env input_files has_cb)
    ∧ (merge_pdfs env input_files has_cb).result = true
    ∧ (merge_pdfs env input_files has_cb).written
        = some (((pre.filter fun p => exOk (env.fs p).mergeReadRes).flatMap
              fun p => (env.fs p).pages)
            ++ ((post.filter fun p => exOk (env.fs p).mergeReadRes).flatMap
              fun p => (env.fs p).pages)) := by
  have hvne : (merge_valid_files env input_files).isEmpty = false := by
    rw [hsplit]
    cases pre <;> rfl
  refine ⟨merge_pdfs_run_ok env input_files has_cb, ?_, ?_⟩
  · rw [merge_pdfs_ok_case env input_files has_cb hvne hm hw]
  · rw [merge_pdfs_ok_case env input_files has_cb hvne hm hw]
    simp only [merge_loop_pages, hsplit, List.filter_append,
      List.filter_cons, hbad]
    simp

/-- Witness environment for C6: the middle of three valid documents
fails at merge-time extraction. -/
def wEnv6 : MergeEnv :=
  ⟨fun p => if p = "a" then okFile [1, 2] 5
    else if p = "b" then raceFile [9] 9
    else okFile [3] 5,
   false, true, .ok (), .ok ()⟩

theorem merge_skips_failed_and_continues_witness :
    (merge_pdfs wEnv6 ["a", "b", "c"] true).result = true
    ∧ (merge_pdfs wEnv6 ["a", "b", "c"] true).written = some [1, 2, 3] := by
  have h := merge_skips_failed_and_continues wEnv6 ["a", "b", "c"] true
    ["a"] ["c"] "b" (by decide) (by decide) rfl rfl
  exact ⟨h.2.1, h.2.2.trans (by decide)⟩

/-- C7: an empty input list, and an input list on which no path passes
the existence-and-validation filter, both make `merge_pdfs` return the
failure value with no write attempted (so no output file is created)
and no progress-callback invocation. -/
theorem merge_no_valid_inputs_short_circuit (env : MergeEnv)
    (has_cb : Bool) :
    merge_pdfs env [] has_cb = ⟨false, [], false, none⟩
    ∧ ∀ input_files : List String,
        (∀ p ∈ input_files,
          ((env.fs p).pathExists && validate_pdf_file (env.fs p)) = false) →
        merge_pdfs env input_files has_cb = ⟨false, [], false, none⟩ := by
  refine ⟨rfl, ?_⟩
  intro input_files h
  apply merge_pdfs_no_valid
  rw [List.isEmpty_iff]
  exact filter_all_false _ _ h

/-- Witness environment for C7: one missing path and one corrupt
path. -/
def wEnv7 : MergeEnv :=
  ⟨fun p => if p = "x" then missingFile else corruptFile,
   false, true, .ok (), .ok ()⟩

theorem merge_no_valid_inputs_short_circuit_witness :
    merge_pdfs wEnv7 ["x", "y"] true = ⟨false, [], false, none⟩ :=
  (merge_no_valid_inputs_short_circuit wEnv7 true).2 ["x", "y"] (by decide)
